import Mathlib

/-!
A verification development for the lead-qualification dashboard backend
(src/main.py and src/config.py).  The document store is shallow-embedded
as a list of documents in scan order, store values as a JSON/BSON value
universe, and the endpoint handlers as pure functions over them.  The
persistence engine itself is the abstract collaborator the specification
describes: point queries are first-match scans over the store list.
Python-specific behaviour (truthiness, str(), string methods, equality
between booleans and integers, TypeError on heterogeneous arithmetic) is
modelled explicitly; unicode-specific corners of str.strip, str.isdigit
and str.upper are modelled on the ASCII range, and repr escape sequences
inside container renderings are not modelled, as no code path under
study depends on them.
-/

/-- Store values: JSON scalars and containers plus the three BSON scalar
wrapper types the serialize helper special-cases by type name (ObjectId,
Decimal128, datetime).  A datetime carries its ISO-8601 rendering. -/
inductive Val where
  | null
  | bool (b : Bool)
  | int (n : Int)
  | str (s : String)
  | objectId (s : String)
  | decimal128 (s : String)
  | datetime (s : String)
  | list (xs : List Val)
  | dict (kvs : List (String × Val))

mutual

/-- Structural decidable equality for Val, written out by constructor
pair because the default derive handler does not cover this nested
inductive. -/
def valDecEq : (a b : Val) → Decidable (a = b)
  | .null, .null => isTrue rfl
  | .bool x, .bool y =>
    match decEq x y with
    | isTrue h => isTrue (congrArg Val.bool h)
    | isFalse h => isFalse (fun e => Val.noConfusion e (fun h2 => h h2))
  | .int x, .int y =>
    match decEq x y with
    | isTrue h => isTrue (congrArg Val.int h)
    | isFalse h => isFalse (fun e => Val.noConfusion e (fun h2 => h h2))
  | .str x, .str y =>
    match decEq x y with
    | isTrue h => isTrue (congrArg Val.str h)
    | isFalse h => isFalse (fun e => Val.noConfusion e (fun h2 => h h2))
  | .objectId x, .objectId y =>
    match decEq x y with
    | isTrue h => isTrue (congrArg Val.objectId h)
    | isFalse h => isFalse (fun e => Val.noConfusion e (fun h2 => h h2))
  | .decimal128 x, .decimal128 y =>
    match decEq x y with
    | isTrue h => isTrue (congrArg Val.decimal128 h)
    | isFalse h => isFalse (fun e => Val.noConfusion e (fun h2 => h h2))
  | .datetime x, .datetime y =>
    match decEq x y with
    | isTrue h => isTrue (congrArg Val.datetime h)
    | isFalse h => isFalse (fun e => Val.noConfusion e (fun h2 => h h2))
  | .list x, .list y =>
    match valListDecEq x y with
    | isTrue h => isTrue (congrArg Val.list h)
    | isFalse h => isFalse (fun e => Val.noConfusion e (fun h2 => h h2))
  | .dict x, .dict y =>
    match valKVsDecEq x y with
    | isTrue h => isTrue (congrArg Val.dict h)
    | isFalse h => isFalse (fun e => Val.noConfusion e (fun h2 => h h2))
  | .null, .bool _ => isFalse (fun e => Val.noConfusion e)
  | .null, .int _ => isFalse (fun e => Val.noConfusion e)
  | .null, .str _ => isFalse (fun e => Val.noConfusion e)
  | .null, .objectId _ => isFalse (fun e => Val.noConfusion e)
  | .null, .decimal128 _ => isFalse (fun e => Val.noConfusion e)
  | .null, .datetime _ => isFalse (fun e => Val.noConfusion e)
  | .null, .list _ => isFalse (fun e => Val.noConfusion e)
  | .null, .dict _ => isFalse (fun e => Val.noConfusion e)
  | .bool _, .null => isFalse (fun e => Val.noConfusion e)
  | .bool _, .int _ => isFalse (fun e => Val.noConfusion e)
  | .bool _, .str _ => isFalse (fun e => Val.noConfusion e)
  | .bool _, .objectId _ => isFalse (fun e => Val.noConfusion e)
  | .bool _, .decimal128 _ => isFalse (fun e => Val.noConfusion e)
  | .bool _, .datetime _ => isFalse (fun e => Val.noConfusion e)
  | .bool _, .list _ => isFalse (fun e => Val.noConfusion e)
  | .bool _, .dict _ => isFalse (fun e => Val.noConfusion e)
  | .int _, .null => isFalse (fun e => Val.noConfusion e)
  | .int _, .bool _ => isFalse (fun e => Val.noConfusion e)
  | .int _, .str _ => isFalse (fun e => Val.noConfusion e)
  | .int _, .objectId _ => isFalse (fun e => Val.noConfusion e)
  | .int _, .decimal128 _ => isFalse (fun e => Val.noConfusion e)
  | .int _, .datetime _ => isFalse (fun e => Val.noConfusion e)
  | .int _, .list _ => isFalse (fun e => Val.noConfusion e)
  | .int _, .dict _ => isFalse (fun e => Val.noConfusion e)
  | .str _, .null => isFalse (fun e => Val.noConfusion e)
  | .str _, .bool _ => isFalse (fun e => Val.noConfusion e)
  | .str _, .int _ => isFalse (fun e => Val.noConfusion e)
  | .str _, .objectId _ => isFalse (fun e => Val.noConfusion e)
  | .str _, .decimal128 _ => isFalse (fun e => Val.noConfusion e)
  | .str _, .datetime _ => isFalse (fun e => Val.noConfusion e)
  | .str _, .list _ => isFalse (fun e => Val.noConfusion e)
  | .str _, .dict _ => isFalse (fun e => Val.noConfusion e)
  | .objectId _, .null => isFalse (fun e => Val.noConfusion e)
  | .objectId _, .bool _ => isFalse (fun e => Val.noConfusion e)
  | .objectId _, .int _ => isFalse (fun e => Val.noConfusion e)
  | .objectId _, .str _ => isFalse (fun e => Val.noConfusion e)
  | .objectId _, .decimal128 _ => isFalse (fun e => Val.noConfusion e)
  | .objectId _, .datetime _ => isFalse (fun e => Val.noConfusion e)
  | .objectId _, .list _ => isFalse (fun e => Val.noConfusion e)
  | .objectId _, .dict _ => isFalse (fun e => Val.noConfusion e)
  | .decimal128 _, .null => isFalse (fun e => Val.noConfusion e)
  | .decimal128 _, .bool _ => isFalse (fun e => Val.noConfusion e)
  | .decimal128 _, .int _ => isFalse (fun e => Val.noConfusion e)
  | .decimal128 _, .str _ => isFalse (fun e => Val.noConfusion e)
  | .decimal128 _, .objectId _ => isFalse (fun e => Val.noConfusion e)
  | .decimal128 _, .datetime _ => isFalse (fun e => Val.noConfusion e)
  | .decimal128 _, .list _ => isFalse (fun e => Val.noConfusion e)
  | .decimal128 _, .dict _ => isFalse (fun e => Val.noConfusion e)
  | .datetime _, .null => isFalse (fun e => Val.noConfusion e)
  | .datetime _, .bool _ => isFalse (fun e => Val.noConfusion e)
  | .datetime _, .int _ => isFalse (fun e => Val.noConfusion e)
  | .datetime _, .str _ => isFalse (fun e => Val.noConfusion e)
  | .datetime _, .objectId _ => isFalse (fun e => Val.noConfusion e)
  | .datetime _, .decimal128 _ => isFalse (fun e => Val.noConfusion e)
  | .datetime _, .list _ => isFalse (fun e => Val.noConfusion e)
  | .datetime _, .dict _ => isFalse (fun e => Val.noConfusion e)
  | .list _, .null => isFalse (fun e => Val.noConfusion e)
  | .list _, .bool _ => isFalse (fun e => Val.noConfusion e)
  | .list _, .int _ => isFalse (fun e => Val.noConfusion e)
  | .list _, .str _ => isFalse (fun e => Val.noConfusion e)
  | .list _, .objectId _ => isFalse (fun e => Val.noConfusion e)
  | .list _, .decimal128 _ => isFalse (fun e => Val.noConfusion e)
  | .list _, .datetime _ => isFalse (fun e => Val.noConfusion e)
  | .list _, .dict _ => isFalse (fun e => Val.noConfusion e)
  | .dict _, .null => isFalse (fun e => Val.noConfusion e)
  | .dict _, .bool _ => isFalse (fun e => Val.noConfusion e)
  | .dict _, .int _ => isFalse (fun e => Val.noConfusion e)
  | .dict _, .str _ => isFalse (fun e => Val.noConfusion e)
  | .dict _, .objectId _ => isFalse (fun e => Val.noConfusion e)
  | .dict _, .decimal128 _ => isFalse (fun e => Val.noConfusion e)
  | .dict _, .datetime _ => isFalse (fun e => Val.noConfusion e)
  | .dict _, .list _ => isFalse (fun e => Val.noConfusion e)

def valListDecEq : (a b : List Val) → Decidable (a = b)
  | [], [] => isTrue rfl
  | [], _ :: _ => isFalse (fun e => List.noConfusion e)
  | _ :: _, [] => isFalse (fun e => List.noConfusion e)
  | x :: xs, y :: ys =>
    match valDecEq x y, valListDecEq xs ys with
    | isTrue h1, isTrue h2 => isTrue (by rw [h1, h2])
    | isFalse h1, _ => isFalse (fun e => List.noConfusion e (fun hh _ => h1 hh))
    | isTrue _, isFalse h2 => isFalse (fun e => List.noConfusion e (fun _ ht => h2 ht))

def valKVsDecEq : (a b : List (String × Val)) → Decidable (a = b)
  | [], [] => isTrue rfl
  | [], _ :: _ => isFalse (fun e => List.noConfusion e)
  | _ :: _, [] => isFalse (fun e => List.noConfusion e)
  | (k, v) :: r, (k2, v2) :: r2 =>
    match decEq k k2, valDecEq v v2, valKVsDecEq r r2 with
    | isTrue h1, isTrue h2, isTrue h3 => isTrue (by rw [h1, h2, h3])
    | isFalse h1, _, _ =>
      isFalse (fun e => List.noConfusion e (fun hh _ => h1 (congrArg Prod.fst hh)))
    | isTrue _, isFalse h2, _ =>
      isFalse (fun e => List.noConfusion e (fun hh _ => h2 (congrArg Prod.snd hh)))
    | isTrue _, isTrue _, isFalse h3 =>
      isFalse (fun e => List.noConfusion e (fun _ ht => h3 ht))

end

instance : DecidableEq Val := valDecEq

/-- A document, or any Python dict with string keys, in insertion order.
Keys are unique in every dict the code builds or receives. -/
abbrev Doc := List (String × Val)

/-- Python dict lookup (d.get and subscripting): the binding of the key. -/
def lookupVal : Doc → String → Option Val
  | [], _ => none
  | (k, v) :: rest, key => if k = key then some v else lookupVal rest key

/-- Python truthiness of a store value. -/
def truthy : Val → Bool
  | .null => false
  | .bool b => b
  | .int n => n != 0
  | .str s => s != ""
  | .objectId _ => true
  | .decimal128 _ => true
  | .datetime _ => true
  | .list xs => !xs.isEmpty
  | .dict kvs => !kvs.isEmpty

/-- Decimal digit character for n below 10. -/
def digitChar (n : Nat) : Char := Char.ofNat (48 + n)

/-- Digits of a natural number, written with explicit fuel so that the
kernel can evaluate it. -/
def natDecimalAux : Nat → Nat → List Char
  | 0, _ => []
  | fuel + 1, n => if n < 10 then [digitChar n] else natDecimalAux fuel (n / 10) ++ [digitChar (n % 10)]

/-- Decimal rendering of a natural number. -/
def natDecimal (n : Nat) : String := String.mk (natDecimalAux (n + 1) n)

/-- Python str() of an integer. -/
def intDecimal (n : Int) : String :=
  if n < 0 then "-" ++ natDecimal n.natAbs else natDecimal n.natAbs

mutual

/-- Python str() of a store value, as flatten_lead applies to sessionId
and extract_chat to message content. -/
def pyStr : Val → String
  | .null => "None"
  | .bool true => "True"
  | .bool false => "False"
  | .int n => intDecimal n
  | .str s => s
  | .objectId s => s
  | .decimal128 s => s
  | .datetime s => s
  | .list xs => "[" ++ String.intercalate ", " (pyReprList xs) ++ "]"
  | .dict kvs => "\x7b" ++ String.intercalate ", " (pyReprKVs kvs) ++ "\x7d"

/-- Python repr() as used for elements inside a container rendering. -/
def pyRepr : Val → String
  | .null => "None"
  | .bool true => "True"
  | .bool false => "False"
  | .int n => intDecimal n
  | .str s => "\x27" ++ s ++ "\x27"
  | .objectId s => s
  | .decimal128 s => s
  | .datetime s => s
  | .list xs => "[" ++ String.intercalate ", " (pyReprList xs) ++ "]"
  | .dict kvs => "\x7b" ++ String.intercalate ", " (pyReprKVs kvs) ++ "\x7d"

def pyReprList : List Val → List String
  | [] => []
  | x :: xs => pyRepr x :: pyReprList xs

def pyReprKVs : List (String × Val) → List String
  | [] => []
  | (k, v) :: rest => ("\x27" ++ k ++ "\x27: " ++ pyRepr v) :: pyReprKVs rest

end

/-- Python str.strip() with no argument: drop leading and trailing
whitespace. -/
def pyStrip (s : String) : String :=
  String.mk (((s.toList.dropWhile Char.isWhitespace).reverse.dropWhile Char.isWhitespace).reverse)

/-- The decimal digits of a string, in order, as built by
"".join(c for c in sid if c.isdigit()). -/
def digitsOf (s : String) : String := String.mk (s.toList.filter Char.isDigit)

/-- Python int() of a nonempty decimal-digit string.  On the ASCII digits
digitsOf keeps, int() cannot raise, so the try/except around it in
find_by_session never fires in the model. -/
def digitsToNat (s : String) : Nat :=
  s.toList.foldl (fun acc c => acc * 10 + (c.toNat - 48)) 0

/-- Python substring membership: needle in hay. -/
def strContains (needle hay : String) : Bool := decide (needle.toList <:+: hay.toList)

/-- Python str.upper(). -/
def pyUpper (s : String) : String := String.mk (s.toList.map Char.toUpper)

mutual

/-- Python equality (==) between store values: booleans equal their
numeric values 0 and 1, values of unrelated types compare unequal.
Mapping comparison is ordered here, which is adequate for the modelled
code paths: mappings are unhashable, so they never reach a counter key,
and every filter comparison puts a string or boolean on one side. -/
def pyEq : Val → Val → Bool
  | .null, .null => true
  | .bool a, .bool b => a == b
  | .bool a, .int n => (if a then (1 : Int) else 0) == n
  | .int n, .bool b => n == (if b then (1 : Int) else 0)
  | .int a, .int b => a == b
  | .str a, .str b => a == b
  | .objectId a, .objectId b => a == b
  | .decimal128 a, .decimal128 b => a == b
  | .datetime a, .datetime b => a == b
  | .list a, .list b => pyEqList a b
  | .dict a, .dict b => pyEqKVs a b
  | _, _ => false

def pyEqList : List Val → List Val → Bool
  | [], [] => true
  | a :: xs, b :: ys => pyEq a b && pyEqList xs ys
  | _, _ => false

def pyEqKVs : List (String × Val) → List (String × Val) → Bool
  | [], [] => true
  | (k, v) :: r, (k2, v2) :: r2 => k == k2 && pyEq v v2 && pyEqKVs r r2
  | _, _ => false

end

mutual

/-- The serialize helper of main.py: make any BSON value JSON-safe.
Mappings and sequences are rebuilt recursively, ObjectId and Decimal128
become str(obj), a datetime becomes its isoformat() string, every other
scalar passes through unchanged. -/
def serialize : Val → Val
  | .dict kvs => .dict (serializeKVs kvs)
  | .list xs => .list (serializeList xs)
  | .objectId s => .str s
  | .decimal128 s => .str s
  | .datetime s => .str s
  | v => v

def serializeList : List Val → List Val
  | [] => []
  | x :: xs => serialize x :: serializeList xs

def serializeKVs : List (String × Val) → List (String × Val)
  | [] => []
  | (k, v) :: rest => (k, serialize v) :: serializeKVs rest

end

/-- The document as flatten_lead sees it after serialize(doc) and
doc.pop of the primary key. -/
def sanitized (doc : Doc) : Doc :=
  (serializeKVs doc).filter (fun kv => kv.1 != "_id")

/-- The has_output test of flatten_lead: isinstance(output, dict) and
len(output) > 0. -/
def isNonemptyDict : Val → Bool
  | .dict kvs => !kvs.isEmpty
  | _ => false

/-- Python value.get(key, default) on a mapping value, as flatten_lead
applies to the output mapping. -/
def valGet (v : Val) (key : String) (dflt : Val) : Val :=
  match v with
  | .dict kvs => (lookupVal kvs key).getD dflt
  | _ => dflt

/-- flatten_lead of main.py: serialize the document, drop _id, and build
the ten-field lead record; the five output sub-fields come from the
output mapping when it is a nonempty dict and are pending defaults
otherwise. -/
def flatten_lead (doc : Doc) : Doc :=
  let d := sanitized doc
  let output := (lookupVal d "output").getD .null
  let has_output := isNonemptyDict output
  let msgLen := (lookupVal d "messageLength").getD (.int 0)
  [("sessionId", .str (pyStr ((lookupVal d "sessionId").getD (.str "")))),
   ("messageLength", if truthy msgLen then msgLen else .int 0),
   ("analysedAt", (lookupVal d "analysedAt").getD .null),
   ("leadAnalysed", (lookupVal d "leadAnalysed").getD (.bool false)),
   ("hasOutput", .bool has_output)] ++
  (if has_output then
    [("qualified", valGet output "qualified" (.bool false)),
     ("intent", valGet output "intent" (.str "UNKNOWN")),
     ("confidence", let c := valGet output "confidence" (.int 0); if truthy c then c else .int 0),
     ("signals", let sg := valGet output "signals" (.list []); if truthy sg then sg else .list []),
     ("summary", let sm := valGet output "summary" (.list []); if truthy sm then sm else .list [])]
  else
    [("qualified", .bool false), ("intent", .str "PENDING"),
     ("confidence", .int 0), ("signals", .list []), ("summary", .list [])])

/-- One iteration of the extract_chat loop: the appended message, or none
when the entry is skipped (not a mapping) or its resolved content is
falsy. -/
def chatEntry (m : Val) : Option Val :=
  match m with
  | .dict kvs =>
    let msgType := (lookupVal kvs "type").getD (.str "unknown")
    let content : Val :=
      match (lookupVal kvs "data").getD .null with
      | .dict d => (lookupVal d "content").getD (.str "")
      | .str s => .str s
      | _ => .str ""
    if truthy content then some (.dict [("type", msgType), ("content", .str (pyStr content))])
    else none
  | _ => none

/-- The accumulating loop of extract_chat (chat.append order). -/
def chatLoop : List Val → List Val → List Val
  | [], acc => acc
  | m :: rest, acc =>
    match chatEntry m with
    | some msg => chatLoop rest (acc ++ [msg])
    | none => chatLoop rest acc

/-- extract_chat of main.py: serialize the document, read messages with
default [], return [] unless it is a sequence, else run the loop. -/
def extract_chat (doc : Doc) : List Val :=
  match (lookupVal (serializeKVs doc) "messages").getD (.list []) with
  | .list ms => chatLoop ms []
  | _ => []

/-- The exact-string strategy predicate: find_one on sessionId equal to
the trimmed input as a string. -/
def sidMatchesStr (sid : String) (d : Doc) : Bool :=
  lookupVal d "sessionId" == some (.str sid)

/-- The numeric strategy predicate: find_one on sessionId equal to the
parsed digit string as a number. -/
def sidMatchesInt (n : Int) (d : Doc) : Bool :=
  lookupVal d "sessionId" == some (.int n)

/-- The regex strategy predicate: an unanchored digit-substring pattern,
which matches only string-valued sessionId fields. -/
def sidMatchesRegex (digits : String) (d : Doc) : Bool :=
  match lookupVal d "sessionId" with
  | some (.str s) => strContains digits s
  | _ => false

/-- The fallback-scan predicate of find_by_session: stringified sessionId
equals the trimmed input, or contains the digit string. -/
def scanMatches (sid digits : String) (d : Doc) : Bool :=
  let docSid := pyStr ((lookupVal d "sessionId").getD (.str ""))
  docSid == sid || strContains digits docSid

/-- find_one over the abstract store: first document in scan order
satisfying the filter. -/
def findOneStrEq (store : List Doc) (sid : String) : Option Doc :=
  store.find? (sidMatchesStr sid)

def findOneIntEq (store : List Doc) (n : Int) : Option Doc :=
  store.find? (sidMatchesInt n)

def findOneRegex (store : List Doc) (digits : String) : Option Doc :=
  store.find? (sidMatchesRegex digits)

/-- Attempt 4 of find_by_session: scan up to 200 documents. -/
def scanFind (store : List Doc) (sid digits : String) : Option Doc :=
  (store.take 200).find? (scanMatches sid digits)

/-- find_by_session of main.py: the robust sessionId lookup, an ordered
cascade of four strategies returning on the first hit. -/
def find_by_session (store : List Doc) (session_id : String) : Option Doc :=
  let sid := pyStrip session_id
  let digits := digitsOf sid
  match findOneStrEq store sid with
  | some d => some d
  | none =>
    match (if digits != "" then findOneIntEq store (digitsToNat digits : Int) else none) with
    | some d => some d
    | none =>
      match (if digits != "" then findOneRegex store digits else none) with
      | some d => some d
      | none => scanFind store sid digits

/-- Outcome of an endpoint handler: a JSON document, or an HTTPException
with a status code and detail message. -/
inductive Endpoint where
  | ok (doc : Doc)
  | error (status : Nat) (detail : String)
deriving DecidableEq

/-- get_lead of main.py (the single-lead endpoint): resolve the session
identifier, 404 when resolution fails, otherwise the flattened lead with
the chat transcript attached. -/
def get_lead (store : List Doc) (session_id : String) : Endpoint :=
  match find_by_session store session_id with
  | none => .error 404 ("Lead \x27" ++ session_id ++ "\x27 not found")
  | some doc => .ok (flatten_lead doc ++ [("chat", .list (extract_chat doc))])

/-- Response shape of the list endpoint. -/
structure ListResponse where
  leads : List Doc
  total : Nat
  skip : Nat
  limit : Nat
  hasMore : Bool
deriving DecidableEq

/-- The store-level part of list_leads: a digit-extracted regex filter on
sessionId when the search text is truthy and contains digits, otherwise
no filter.  The store list stands for the collection in the requested
analysedAt sort order, the sort itself being the abstract store
collaborator's. -/
def searchFilter (store : List Doc) (search : Option String) : List Doc :=
  match search with
  | some s =>
    if s != "" then
      if digitsOf s != "" then store.filter (sidMatchesRegex (digitsOf s)) else store
    else store
  | none => store

/-- The in-memory filter of the list_leads loop on one flattened lead:
skip pending leads, then apply the optional intent and qualified
filters.  The intent filter compares against intent.upper(). -/
def leadKept (intent : Option String) (qualified : Option Bool) (lead : Doc) : Bool :=
  truthy ((lookupVal lead "hasOutput").getD .null) &&
  (match intent with
   | some i => if i != "" then pyEq ((lookupVal lead "intent").getD .null) (.str (pyUpper i)) else true
   | none => true) &&
  (match qualified with
   | some q => pyEq ((lookupVal lead "qualified").getD .null) (.bool q)
   | none => true)

/-- The all_leads accumulation of list_leads: fetch the filtered window
capped at 500 documents, flatten each and keep the ones passing the
in-memory filters, in fetch order. -/
def allLeads (store : List Doc) (search intent : Option String) (qualified : Option Bool) : List Doc :=
  (((searchFilter store search).take 500).map flatten_lead).filter (leadKept intent qualified)

/-- list_leads of main.py (the list endpoint). -/
def list_leads (store : List Doc) (search intent : Option String) (qualified : Option Bool)
    (skip limit : Nat) : ListResponse :=
  let all := allLeads store search intent qualified
  { leads := (all.drop skip).take limit
    total := all.length
    skip := skip
    limit := limit
    hasMore := decide (skip + limit < all.length) }

/-- Accumulator of the get_stats scan loop. -/
structure StatsAcc where
  total : Nat
  qualifiedCount : Nat
  confidenceSum : Int
  messageSum : Int
  intentCounts : List (Val × Nat)
deriving DecidableEq

/-- Python += between an int accumulator and a store value: ints add,
booleans coerce to 0 and 1, any other value raises TypeError (none). -/
def pyAddNum (acc : Int) (v : Val) : Option Int :=
  match v with
  | .int n => some (acc + n)
  | .bool b => some (acc + (if b then 1 else 0))
  | _ => none

/-- Whether a value can be a Python dict key: containers are unhashable. -/
def hashable : Val → Bool
  | .list _ => false
  | .dict _ => false
  | _ => true

/-- The counter update intent_counts[intent] = intent_counts.get(intent, 0) + 1:
an existing key (by Python equality) keeps its place, a new key is
appended. -/
def bump : List (Val × Nat) → Val → List (Val × Nat)
  | [], k => [(k, 1)]
  | (k2, n) :: rest, k =>
    if pyEq k2 k then (k2, n + 1) :: rest else (k2, n) :: bump rest k

/-- One get_stats loop iteration over a raw document: flatten it, skip it
when pending, else accumulate; none models the TypeError raised by a
truthy non-numeric confidence or messageLength, or an unhashable intent
used as a counter key. -/
def statsStep (acc : StatsAcc) (doc : Doc) : Option StatsAcc :=
  let lead := flatten_lead doc
  if !truthy ((lookupVal lead "hasOutput").getD .null) then some acc
  else
    let conf0 := (lookupVal lead "confidence").getD (.int 0)
    let conf := if truthy conf0 then conf0 else .int 0
    let msg0 := (lookupVal lead "messageLength").getD (.int 0)
    let msg := if truthy msg0 then msg0 else .int 0
    let intent := (lookupVal lead "intent").getD (.str "UNKNOWN")
    match pyAddNum acc.confidenceSum conf, pyAddNum acc.messageSum msg with
    | some cs, some ms =>
      if hashable intent then
        some { total := acc.total + 1
               qualifiedCount := acc.qualifiedCount +
                 (if truthy ((lookupVal lead "qualified").getD .null) then 1 else 0)
               confidenceSum := cs
               messageSum := ms
               intentCounts := bump acc.intentCounts intent }
      else none
    | _, _ => none

/-- The get_stats scan loop over the fetched documents. -/
def statsLoop : List Doc → StatsAcc → Option StatsAcc
  | [], acc => some acc
  | d :: rest, acc =>
    match statsStep acc d with
    | some acc2 => statsLoop rest acc2
    | none => none

/-- An exact rational in lowest terms with positive denominator: the
model of the float values Python division and round() produce.  Exact
rational arithmetic idealizes IEEE floats, and half-up rounding
idealizes round()'s half-even tie rule; no claim under study depends on
either corner. -/
structure Frac where
  num : Int
  den : Int
deriving DecidableEq

/-- The fraction n / d in lowest terms, for d positive. -/
def mkFrac (n d : Int) : Frac :=
  let g : Int := (Int.gcd n d : Int)
  if g = 0 then ⟨0, 1⟩ else ⟨n / g, d / g⟩

/-- Rounding of num / den to the nearest integer, half away from zero
upward, for den positive. -/
def roundInt (num den : Int) : Int := Int.fdiv (2 * num + den) (2 * den)

/-- Python round(num / den, d) as an exact fraction, for den positive. -/
def roundDiv (num den : Int) (d : Nat) : Frac :=
  mkFrac (roundInt (num * (10 : Int) ^ d) den) ((10 : Int) ^ d)

/-- Response shape of the stats endpoint.  notQualified is total minus
the qualified count, computed in unbounded Python integers. -/
structure StatsResponse where
  total : Nat
  qualified : Nat
  notQualified : Int
  qualificationRate : Frac
  avgConfidence : Frac
  avgMessages : Frac
  intentBreakdown : List (Val × Nat)
deriving DecidableEq

/-- The explicit all-zero shape get_stats returns when the scan saw no
analysed lead. -/
def zeroStats : StatsResponse :=
  { total := 0, qualified := 0, notQualified := 0, qualificationRate := ⟨0, 1⟩,
    avgConfidence := ⟨0, 1⟩, avgMessages := ⟨0, 1⟩, intentBreakdown := [] }

/-- get_stats of main.py (the stats endpoint): scan up to 1000 documents
and aggregate the analysed leads; none models an uncaught TypeError. -/
def get_stats (store : List Doc) : Option StatsResponse :=
  match statsLoop (store.take 1000) ⟨0, 0, 0, 0, []⟩ with
  | none => none
  | some acc =>
    if acc.total = 0 then some zeroStats
    else
      some { total := acc.total
             qualified := acc.qualifiedCount
             notQualified := (acc.total : Int) - (acc.qualifiedCount : Int)
             qualificationRate := roundDiv (acc.qualifiedCount : Int) (acc.total : Int) 3
             avgConfidence := roundDiv acc.confidenceSum (acc.total : Int) 3
             avgMessages := roundDiv acc.messageSum (acc.total : Int) 1
             intentBreakdown := acc.intentCounts }

/-- Whether flatten_lead marks a document as analysed: its serialized
output field is a nonempty mapping. -/
def docHasOutput (doc : Doc) : Bool :=
  isNonemptyDict ((lookupVal (sanitized doc) "output").getD .null)

/-- The same test read off the raw document, before serialization. -/
def rawHasOutput (doc : Doc) : Bool :=
  match lookupVal doc "output" with
  | some v => isNonemptyDict v
  | none => false

/-- Number of analysed documents in the stats scan window. -/
def analysedCount (store : List Doc) : Nat :=
  (store.take 1000).countP docHasOutput

/-- Total of the intent histogram's counts. -/
def sumCounts (l : List (Val × Nat)) : Nat := (l.map Prod.snd).sum

/-- Document with a negative integer messageLength and a non-boolean
leadAnalysed, exercising the untyped passthrough of flatten_lead. -/
def badTypesDoc : Doc := [("messageLength", .int (-5)), ("leadAnalysed", .str "yes")]

/-- An analysed document whose stored intent is lowercase. -/
def lowerIntentDoc : Doc := [("sessionId", .str "s1"), ("output", .dict [("intent", .str "purchase")])]

/-- An analysed document whose stored intent is uppercase. -/
def upperIntentDoc : Doc := [("sessionId", .str "s2"), ("output", .dict [("intent", .str "PURCHASE")])]

/-- A minimal analysed document (nonempty output). -/
def analysedDoc (sid : String) : Doc :=
  [("sessionId", .str sid), ("output", .dict [("qualified", .bool true)])]

/-- Store of three analysed documents, for the pagination instance. -/
def threeLeadStore : List Doc := [analysedDoc "1", analysedDoc "2", analysedDoc "3"]

/-- Store exercising resolver precedence: the substring match comes first
in scan order, the exact string match second. -/
def precedenceStore : List Doc := [[("sessionId", .int 4299)], [("sessionId", .str "42")]]

/-- Store with a single integer-typed sessionId. -/
def intSidStore : List Doc := [[("sessionId", .int 5551234)]]

/-- Store with a single unrelated document, for resolver exhaustion. -/
def unrelatedStore : List Doc := [[("sessionId", .str "100")]]

/-- Store with one fully-populated analysed document, for the stats
witness. -/
def oneLeadStore : List Doc :=
  [[("output", .dict [("qualified", .bool true), ("intent", .str "BUY"), ("confidence", .int 80)]),
    ("messageLength", .int 10)]]

/-- A pending document carrying an empty output mapping and other fields. -/
def pendingDoc : Doc := [("sessionId", .str "p"), ("output", .dict []), ("messageLength", .int 7)]

/-- The stats response get_stats computes on oneLeadStore. -/
def oneLeadStats : StatsResponse :=
  { total := 1, qualified := 1, notQualified := 0, qualificationRate := ⟨1, 1⟩,
    avgConfidence := ⟨80, 1⟩, avgMessages := ⟨10, 1⟩, intentBreakdown := [(.str "BUY", 1)] }

theorem lookupVal_serializeKVs (kvs : Doc) (k : String) :
    lookupVal (serializeKVs kvs) k = (lookupVal kvs k).map serialize := by
  induction kvs with
  | nil => rfl
  | cons kv rest ih =>
    obtain ⟨k2, v⟩ := kv
    by_cases h : k2 = k <;> simp [serializeKVs, lookupVal, h, ih]

theorem lookupVal_filter_not_id (kvs : Doc) (k : String) (hk : k ≠ "_id") :
    lookupVal (kvs.filter (fun kv => kv.1 != "_id")) k = lookupVal kvs k := by
  induction kvs with
  | nil => rfl
  | cons kv rest ih =>
    obtain ⟨k2, v⟩ := kv
    by_cases hid : k2 = "_id"
    · subst hid
      have h1 : ("_id" != "_id") = false := by decide
      have hne : ¬ ("_id" = k) := fun h => hk h.symm
      simp [List.filter_cons, h1, lookupVal, hne, ih]
    · have h1 : (k2 != "_id") = true := by simpa using hid
      simp [List.filter_cons, h1, lookupVal, ih]

theorem lookupVal_sanitized (doc : Doc) (k : String) (hk : k ≠ "_id") :
    lookupVal (sanitized doc) k = (lookupVal doc k).map serialize := by
  rw [sanitized, lookupVal_filter_not_id _ _ hk, lookupVal_serializeKVs]

theorem serializeKVs_isEmpty (kvs : Doc) : (serializeKVs kvs).isEmpty = kvs.isEmpty := by
  cases kvs with
  | nil => rfl
  | cons kv rest => obtain ⟨k, v⟩ := kv; rfl

theorem isNonemptyDict_serialize (v : Val) :
    isNonemptyDict (serialize v) = isNonemptyDict v := by
  cases v <;> simp [serialize, isNonemptyDict, serializeKVs_isEmpty]

theorem docHasOutput_eq_raw (doc : Doc) : docHasOutput doc = rawHasOutput doc := by
  rw [docHasOutput, rawHasOutput, lookupVal_sanitized _ _ (by decide)]
  cases h : lookupVal doc "output" with
  | none => rfl
  | some v => simp [isNonemptyDict_serialize]

theorem flatten_lead_keys (doc : Doc) :
    (flatten_lead doc).map Prod.fst =
      ["sessionId", "messageLength", "analysedAt", "leadAnalysed", "hasOutput",
       "qualified", "intent", "confidence", "signals", "summary"] := by
  rw [flatten_lead]
  by_cases h : isNonemptyDict ((lookupVal (sanitized doc) "output").getD Val.null) = true <;>
    simp [h]

theorem flatten_lead_hasOutput (doc : Doc) :
    lookupVal (flatten_lead doc) "hasOutput" = some (.bool (docHasOutput doc)) := by
  rw [flatten_lead, docHasOutput]
  simp [lookupVal]

theorem flatten_lead_sessionId (doc : Doc) :
    lookupVal (flatten_lead doc) "sessionId" =
      some (.str (pyStr ((lookupVal (sanitized doc) "sessionId").getD (.str "")))) := by
  rw [flatten_lead]
  simp [lookupVal]

theorem flatten_lead_messageLength (doc : Doc) :
    lookupVal (flatten_lead doc) "messageLength" =
      some (let m := ((lookupVal doc "messageLength").map serialize).getD (.int 0)
            if truthy m then m else .int 0) := by
  rw [flatten_lead]
  rw [lookupVal_sanitized _ "messageLength" (by decide)]
  simp [lookupVal]

theorem flatten_lead_pending (doc : Doc) (h : docHasOutput doc = false) :
    lookupVal (flatten_lead doc) "hasOutput" = some (.bool false) ∧
    lookupVal (flatten_lead doc) "qualified" = some (.bool false) ∧
    lookupVal (flatten_lead doc) "intent" = some (.str "PENDING") ∧
    lookupVal (flatten_lead doc) "confidence" = some (.int 0) ∧
    lookupVal (flatten_lead doc) "signals" = some (.list []) ∧
    lookupVal (flatten_lead doc) "summary" = some (.list []) := by
  rw [docHasOutput] at h
  rw [flatten_lead]
  simp only [h]
  simp [lookupVal]


/-- C1 counterexample: flatten_lead does not coerce field types — a
stored negative messageLength passes through (so messageLength is not
always an integer greater than or equal to 0) and a stored string
leadAnalysed stays a string (so the record is not correctly typed per
the data model). -/
theorem flatten_typed_counterexample :
    lookupVal (flatten_lead badTypesDoc) "messageLength" = some (.int (-5)) ∧
    (-5 : Int) < 0 ∧
    lookupVal (flatten_lead badTypesDoc) "leadAnalysed" = some (.str "yes") := by
  decide

/-- C1 amended: flatten_lead is total on mappings and always returns a
record with the ten contract fields present and in order, with
sessionId always a string and hasOutput always a boolean; messageLength
is the integer 0 when the stored field is absent and echoes any stored
nonnegative integer, but stored values are otherwise passed through
untyped. -/
theorem flatten_total_amended (doc : Doc) :
    (flatten_lead doc).map Prod.fst =
      ["sessionId", "messageLength", "analysedAt", "leadAnalysed", "hasOutput",
       "qualified", "intent", "confidence", "signals", "summary"] ∧
    (∃ s, lookupVal (flatten_lead doc) "sessionId" = some (.str s)) ∧
    (∃ b, lookupVal (flatten_lead doc) "hasOutput" = some (.bool b)) ∧
    (lookupVal doc "messageLength" = none →
      lookupVal (flatten_lead doc) "messageLength" = some (.int 0)) ∧
    (∀ n : Int, lookupVal doc "messageLength" = some (.int n) → 0 ≤ n →
      lookupVal (flatten_lead doc) "messageLength" = some (.int n)) := by
  refine ⟨flatten_lead_keys doc, ⟨_, flatten_lead_sessionId doc⟩,
    ⟨_, flatten_lead_hasOutput doc⟩, ?_, ?_⟩
  · intro h
    rw [flatten_lead_messageLength]
    simp [h, truthy]
  · intro n h _
    rw [flatten_lead_messageLength]
    by_cases hz : n = 0
    · subst hz
      simp [h, serialize, truthy]
    · simp [h, serialize, truthy, hz]

/-- C2: a document whose output field is absent, not a mapping, or an
empty mapping flattens to the pending shape: hasOutput false, qualified
false, intent PENDING, confidence 0, empty signals and summary,
regardless of every other field. -/
theorem pending_defaults (doc : Doc) (h : rawHasOutput doc = false) :
    lookupVal (flatten_lead doc) "hasOutput" = some (.bool false) ∧
    lookupVal (flatten_lead doc) "qualified" = some (.bool false) ∧
    lookupVal (flatten_lead doc) "intent" = some (.str "PENDING") ∧
    lookupVal (flatten_lead doc) "confidence" = some (.int 0) ∧
    lookupVal (flatten_lead doc) "signals" = some (.list []) ∧
    lookupVal (flatten_lead doc) "summary" = some (.list []) :=
  flatten_lead_pending doc (by rw [docHasOutput_eq_raw]; exact h)

/-- C2 witness: the pending defaults at a concrete document whose output
is an empty mapping. -/
theorem pending_defaults_witness :
    lookupVal (flatten_lead pendingDoc) "hasOutput" = some (.bool false) ∧
    lookupVal (flatten_lead pendingDoc) "qualified" = some (.bool false) ∧
    lookupVal (flatten_lead pendingDoc) "intent" = some (.str "PENDING") ∧
    lookupVal (flatten_lead pendingDoc) "confidence" = some (.int 0) ∧
    lookupVal (flatten_lead pendingDoc) "signals" = some (.list []) ∧
    lookupVal (flatten_lead pendingDoc) "summary" = some (.list []) :=
  pending_defaults pendingDoc (by decide)

/-- C3: strategy precedence of the resolver — whenever the store holds a
document whose sessionId is exactly the string "42", looking up "42"
returns a document with that exact string sessionId, never the
substring-matching document with the integer sessionId 4299 that the
store also holds. -/
theorem resolver_precedence (store : List Doc)
    (h1 : ∃ d ∈ store, lookupVal d "sessionId" = some (.str "42"))
    (_h2 : ∃ d ∈ store, lookupVal d "sessionId" = some (.int 4299)) :
    ∃ d, find_by_session store "42" = some d ∧
      lookupVal d "sessionId" = some (.str "42") := by
  have hsid : pyStrip "42" = "42" := by decide
  obtain ⟨d0, hd0, hsid0⟩ := h1
  have hne : findOneStrEq store "42" ≠ none := by
    rw [Ne, findOneStrEq, List.find?_eq_none]
    push_neg
    exact ⟨d0, hd0, by simp [sidMatchesStr, hsid0]⟩
  cases hf : findOneStrEq store "42" with
  | none => exact absurd hf hne
  | some d =>
    refine ⟨d, by simp [find_by_session, hsid, hf], ?_⟩
    rw [findOneStrEq] at hf
    have hp := List.find?_some hf
    simpa [sidMatchesStr] using hp

/-- C3 witness: on a store listing the loose integer match 4299 before
the exact string match "42", the resolver still returns the exact
match. -/
theorem resolver_precedence_witness :
    ∃ d, find_by_session precedenceStore "42" = some d ∧
      lookupVal d "sessionId" = some (.str "42") :=
  resolver_precedence precedenceStore (by decide) (by decide)

/-- C4: resolver exhaustion — when no document matches the trimmed input
under any of the four strategies (exact string, parsed-digits integer,
digit-substring regex, 200-document fallback scan), find_by_session
returns none and the single-lead endpoint answers 404 with the message
embedding the requested identifier. -/
theorem resolver_exhaustion (store : List Doc) (input : String)
    (h1 : ∀ d ∈ store, sidMatchesStr (pyStrip input) d = false)
    (h2 : ∀ d ∈ store, sidMatchesInt (digitsToNat (digitsOf (pyStrip input)) : Int) d = false)
    (h3 : ∀ d ∈ store, sidMatchesRegex (digitsOf (pyStrip input)) d = false)
    (h4 : ∀ d ∈ store.take 200, scanMatches (pyStrip input) (digitsOf (pyStrip input)) d = false) :
    find_by_session store input = none ∧
    get_lead store input = .error 404 ("Lead \x27" ++ input ++ "\x27 not found") := by
  have f1 : findOneStrEq store (pyStrip input) = none := by
    rw [findOneStrEq, List.find?_eq_none]
    intro x hx
    simp [h1 x hx]
  have f2 : findOneIntEq store (digitsToNat (digitsOf (pyStrip input)) : Int) = none := by
    rw [findOneIntEq, List.find?_eq_none]
    intro x hx
    simp [h2 x hx]
  have f3 : findOneRegex store (digitsOf (pyStrip input)) = none := by
    rw [findOneRegex, List.find?_eq_none]
    intro x hx
    simp [h3 x hx]
  have f4 : scanFind store (pyStrip input) (digitsOf (pyStrip input)) = none := by
    rw [scanFind, List.find?_eq_none]
    intro x hx
    simp [h4 x hx]
  have main : find_by_session store input = none := by
    simp [find_by_session, f1, f2, f3, f4]
  exact ⟨main, by simp [get_lead, main]⟩

/-- C4 witness: looking up "42" on a store holding only sessionId "100"
fails every strategy and yields the 404 outcome. -/
theorem resolver_exhaustion_witness :
    find_by_session unrelatedStore "42" = none ∧
    get_lead unrelatedStore "42" = .error 404 ("Lead \x2742\x27 not found") :=
  resolver_exhaustion unrelatedStore "42" (by decide) (by decide) (by decide) (by decide)

/-- C6: the numeric fallback — when no stored sessionId string-equals
"555-1234" but some document stores the integer 5551234, resolving
"555-1234" extracts the digits, parses them, and returns such a
document through the second strategy. -/
theorem resolver_numeric_fallback (store : List Doc)
    (h1 : ∀ d ∈ store, lookupVal d "sessionId" ≠ some (.str "555-1234"))
    (h2 : ∃ d ∈ store, lookupVal d "sessionId" = some (.int 5551234)) :
    ∃ d, find_by_session store "555-1234" = some d ∧
      lookupVal d "sessionId" = some (.int 5551234) := by
  have hsid : pyStrip "555-1234" = "555-1234" := by decide
  have hdig : digitsOf "555-1234" = "5551234" := by decide
  have hnum : digitsToNat "5551234" = 5551234 := by decide
  have f1 : findOneStrEq store "555-1234" = none := by
    rw [findOneStrEq, List.find?_eq_none]
    intro x hx
    simp [sidMatchesStr, h1 x hx]
  obtain ⟨d0, hd0, hsid0⟩ := h2
  have hne : findOneIntEq store 5551234 ≠ none := by
    rw [Ne, findOneIntEq, List.find?_eq_none]
    push_neg
    exact ⟨d0, hd0, by simp [sidMatchesInt, hsid0]⟩
  cases hf : findOneIntEq store 5551234 with
  | none => exact absurd hf hne
  | some d =>
    refine ⟨d, ?_, ?_⟩
    · simp [find_by_session, hsid, hdig, hnum, f1, hf]
    · rw [findOneIntEq] at hf
      have hp := List.find?_some hf
      simpa [sidMatchesInt] using hp

/-- C6 witness: the lookup of "555-1234" on a store holding only the
integer sessionId 5551234. -/
theorem resolver_numeric_fallback_witness :
    ∃ d, find_by_session intSidStore "555-1234" = some d ∧
      lookupVal d "sessionId" = some (.int 5551234) :=
  resolver_numeric_fallback intSidStore (by decide) (by decide)

theorem append_left_ne_empty (a b : String) (ha : a.data ≠ []) : a ++ b ≠ "" := by
  intro he
  have h2 : a.data ++ b.data = ([] : List Char) := congrArg String.data he
  rw [List.append_eq_nil] at h2
  exact ha h2.1

theorem natDecimal_ne_empty (n : Nat) : natDecimal n ≠ "" := by
  rw [natDecimal]
  intro h
  have h2 : natDecimalAux (n + 1) n = [] := congrArg String.data h
  rw [natDecimalAux] at h2
  by_cases h10 : n < 10
  · simp [h10] at h2
  · simp [h10] at h2

theorem intDecimal_ne_empty (n : Int) : intDecimal n ≠ "" := by
  rw [intDecimal]
  by_cases hneg : n < 0
  · simp only [hneg, if_true]
    exact append_left_ne_empty "-" _ (by decide)
  · simp only [hneg, if_false]
    exact natDecimal_ne_empty _

theorem pyStr_serialize_ne_empty (v : Val) (h : truthy (serialize v) = true) :
    pyStr (serialize v) ≠ "" := by
  cases v with
  | null => simp [serialize, truthy] at h
  | bool b =>
    cases b with
    | true => simp [serialize, pyStr]
    | false => simp [serialize, truthy] at h
  | int n =>
    simp only [serialize, pyStr]
    exact intDecimal_ne_empty n
  | str s =>
    simp only [serialize, truthy, bne_iff_ne, ne_eq] at h
    simpa [pyStr] using h
  | objectId s =>
    simp only [serialize, truthy, bne_iff_ne, ne_eq] at h
    simpa [pyStr] using h
  | decimal128 s =>
    simp only [serialize, truthy, bne_iff_ne, ne_eq] at h
    simpa [pyStr] using h
  | datetime s =>
    simp only [serialize, truthy, bne_iff_ne, ne_eq] at h
    simpa [pyStr] using h
  | list xs =>
    simp only [serialize, pyStr]
    exact append_left_ne_empty _ _ (List.cons_ne_nil _ _)
  | dict kvs =>
    simp only [serialize, pyStr]
    exact append_left_ne_empty _ _ (List.cons_ne_nil _ _)

theorem serializeList_eq_map (xs : List Val) : serializeList xs = xs.map serialize := by
  induction xs with
  | nil => rfl
  | cons x rest ih => simp [serializeList, ih]

theorem chatLoop_eq_filterMap (ms acc : List Val) :
    chatLoop ms acc = acc ++ ms.filterMap chatEntry := by
  induction ms generalizing acc with
  | nil => simp [chatLoop]
  | cons m rest ih =>
    rw [chatLoop]
    cases h : chatEntry m with
    | none => simp [h, ih, List.filterMap_cons]
    | some msg => simp [h, ih, List.filterMap_cons]

theorem chatEntry_serialize (y m : Val) (h : chatEntry (serialize y) = some m) :
    ∃ t s, m = .dict [("type", t), ("content", .str s)] ∧ s ≠ "" := by
  cases y with
  | null => simp [serialize, chatEntry] at h
  | bool b => simp [serialize, chatEntry] at h
  | int n => simp [serialize, chatEntry] at h
  | str s => simp [serialize, chatEntry] at h
  | objectId s => simp [serialize, chatEntry] at h
  | decimal128 s => simp [serialize, chatEntry] at h
  | datetime s => simp [serialize, chatEntry] at h
  | list xs => simp [serialize, chatEntry] at h
  | dict kvs =>
    simp only [serialize, chatEntry, lookupVal_serializeKVs] at h
    cases hd : lookupVal kvs "data" with
    | none =>
      rw [hd] at h
      simp [truthy] at h
    | some d0 =>
      rw [hd] at h
      cases d0 with
      | null => simp [serialize, truthy] at h
      | bool b => simp [serialize, truthy] at h
      | int n => simp [serialize, truthy] at h
      | list xs => simp [serialize, truthy] at h
      | dict dkvs =>
        simp only [Option.map_some', Option.getD_some, serialize, lookupVal_serializeKVs] at h
        cases hc : lookupVal dkvs "content" with
        | none =>
          rw [hc] at h
          simp [truthy] at h
        | some c0 =>
          rw [hc] at h
          simp only [Option.map_some', Option.getD_some] at h
          by_cases ht : truthy (serialize c0) = true
          · rw [if_pos ht] at h
            exact ⟨_, pyStr (serialize c0), (Option.some.inj h).symm,
              pyStr_serialize_ne_empty c0 ht⟩
          · simp [ht] at h
      | str s =>
        simp only [Option.map_some', Option.getD_some, serialize] at h
        by_cases hs : truthy (Val.str s) = true
        · rw [if_pos hs] at h
          simp only [pyStr] at h
          obtain rfl := Option.some.inj h
          exact ⟨_, s, rfl, by simpa [truthy, bne_iff_ne] using hs⟩
        · simp [hs] at h
      | objectId s =>
        simp only [Option.map_some', Option.getD_some, serialize] at h
        by_cases hs : truthy (Val.str s) = true
        · rw [if_pos hs] at h
          simp only [pyStr] at h
          obtain rfl := Option.some.inj h
          exact ⟨_, s, rfl, by simpa [truthy, bne_iff_ne] using hs⟩
        · simp [hs] at h
      | decimal128 s =>
        simp only [Option.map_some', Option.getD_some, serialize] at h
        by_cases hs : truthy (Val.str s) = true
        · rw [if_pos hs] at h
          simp only [pyStr] at h
          obtain rfl := Option.some.inj h
          exact ⟨_, s, rfl, by simpa [truthy, bne_iff_ne] using hs⟩
        · simp [hs] at h
      | datetime s =>
        simp only [Option.map_some', Option.getD_some, serialize] at h
        by_cases hs : truthy (Val.str s) = true
        · rw [if_pos hs] at h
          simp only [pyStr] at h
          obtain rfl := Option.some.inj h
          exact ⟨_, s, rfl, by simpa [truthy, bne_iff_ne] using hs⟩
        · simp [hs] at h

/-- C7: extract_chat is total and order-preserving — a missing or
non-sequence messages field yields an empty transcript; otherwise the
result is exactly the in-order filterMap of the per-entry transform, so
relative order is preserved; every emitted message is a type/content
pair with stringified nonempty content; non-mapping entries are
skipped; and a mapping entry without a type field defaults it to
"unknown". -/
theorem extract_chat_spec (doc : Doc) :
    ((∀ ms, lookupVal doc "messages" ≠ some (.list ms)) → extract_chat doc = []) ∧
    (∀ ms, lookupVal doc "messages" = some (.list ms) →
      extract_chat doc = (serializeList ms).filterMap chatEntry) ∧
    (∀ m ∈ extract_chat doc, ∃ t s, m = .dict [("type", t), ("content", .str s)] ∧ s ≠ "") ∧
    (∀ v : Val, (∀ kvs, v ≠ .dict kvs) → chatEntry v = none) ∧
    (∀ kvs, lookupVal kvs "type" = none → ∀ m, chatEntry (.dict kvs) = some m →
      ∃ s, m = .dict [("type", .str "unknown"), ("content", .str s)]) := by
  have hempty : (∀ ms, lookupVal doc "messages" ≠ some (.list ms)) → extract_chat doc = [] := by
    intro hnot
    rw [extract_chat, lookupVal_serializeKVs]
    cases hm : lookupVal doc "messages" with
    | none => simp [chatLoop]
    | some v =>
      cases v with
      | list ms => exact absurd hm (hnot ms)
      | null => simp [serialize]
      | bool b => simp [serialize]
      | int n => simp [serialize]
      | str s => simp [serialize]
      | objectId s => simp [serialize]
      | decimal128 s => simp [serialize]
      | datetime s => simp [serialize]
      | dict kvs => simp [serialize]
  have hlist : ∀ ms, lookupVal doc "messages" = some (.list ms) →
      extract_chat doc = (serializeList ms).filterMap chatEntry := by
    intro ms hm
    rw [extract_chat, lookupVal_serializeKVs, hm]
    simp only [Option.map_some', Option.getD_some, serialize]
    rw [chatLoop_eq_filterMap]
    simp
  refine ⟨hempty, hlist, ?_, ?_, ?_⟩
  · intro m hmem
    by_cases hex : ∃ ms, lookupVal doc "messages" = some (.list ms)
    · obtain ⟨ms, hm⟩ := hex
      rw [hlist ms hm] at hmem
      obtain ⟨x, hx, hexx⟩ := List.mem_filterMap.mp hmem
      rw [serializeList_eq_map] at hx
      obtain ⟨y, _, rfl⟩ := List.mem_map.mp hx
      exact chatEntry_serialize y m hexx
    · push_neg at hex
      rw [hempty hex] at hmem
      simp at hmem
  · intro v hv
    cases v with
    | dict kvs => exact absurd rfl (hv kvs)
    | null => rfl
    | bool b => rfl
    | int n => rfl
    | str s => rfl
    | objectId s => rfl
    | decimal128 s => rfl
    | datetime s => rfl
    | list xs => rfl
  · intro kvs htype m hsome
    simp only [chatEntry, htype, Option.getD_none] at hsome
    by_cases ht : truthy (match (lookupVal kvs "data").getD Val.null with
        | .dict d => (lookupVal d "content").getD (.str "")
        | .str s => .str s
        | _ => .str "") = true
    · rw [if_pos ht] at hsome
      exact ⟨_, (Option.some.inj hsome).symm⟩
    · rw [if_neg ht] at hsome
      exact absurd hsome (by simp)

/-- C5 counterexample: the intent filter is not case-insensitive — an
analysed lead whose stored intent is the lowercase "purchase" is
excluded both for the query "PURCHASE" and for the identical-up-to-case
query "purchase", because only the query side is uppercased. -/
theorem intent_filter_counterexample :
    lookupVal (flatten_lead lowerIntentDoc) "hasOutput" = some (.bool true) ∧
    lookupVal (flatten_lead lowerIntentDoc) "intent" = some (.str "purchase") ∧
    pyUpper "purchase" = "PURCHASE" ∧
    (list_leads [lowerIntentDoc] none (some "PURCHASE") none 0 50).leads = [] ∧
    (list_leads [lowerIntentDoc] none (some "PURCHASE") none 0 50).total = 0 ∧
    (list_leads [lowerIntentDoc] none (some "purchase") none 0 50).leads = [] := by
  decide

/-- C5 amended: with a nonempty intent query and no other filters, a
flattened lead is kept exactly when it passes the hasOutput gate and
its stored intent equals the uppercased query under Python equality; so
stored uppercase intents match the query case-insensitively, while a
stored non-uppercase intent matches no query at all. -/
theorem intent_filter_amended (store : List Doc) (q : String) (hq : q ≠ "") (l : Doc) :
    l ∈ allLeads store none (some q) none ↔
      (l ∈ allLeads store none none none ∧
       pyEq ((lookupVal l "intent").getD .null) (.str (pyUpper q)) = true) := by
  have hbne : (q != "") = true := by simpa [bne_iff_ne] using hq
  simp only [allLeads, searchFilter, List.mem_filter, leadKept, hbne, if_true,
    Bool.and_true, Bool.and_eq_true]
  tauto

/-- C5 witness: a stored uppercase intent PURCHASE is kept for the
lowercase query "purchase". -/
theorem intent_filter_witness :
    flatten_lead upperIntentDoc ∈ allLeads [upperIntentDoc] none (some "purchase") none :=
  (intent_filter_amended [upperIntentDoc] "purchase" (by decide)
    (flatten_lead upperIntentDoc)).mpr (by decide)

/-- C8: list pagination — the response total is the length of the
fetched-and-filtered sequence (itself bounded to the 500-document
window), leads is its contiguous slice from skip of length at most
limit, and hasMore holds exactly when skip + limit is less than total;
in particular skip 0, limit 1 against 3 analysed leads returns one
lead with total 3 and hasMore true. -/
theorem list_pagination :
    (∀ (store : List Doc) (search intent : Option String) (qualified : Option Bool)
        (skip limit : Nat),
      (list_leads store search intent qualified skip limit).total =
        (allLeads store search intent qualified).length ∧
      (list_leads store search intent qualified skip limit).leads =
        ((allLeads store search intent qualified).drop skip).take limit ∧
      ((list_leads store search intent qualified skip limit).hasMore = true ↔
        skip + limit < (allLeads store search intent qualified).length)) ∧
    ((list_leads threeLeadStore none none none 0 1).leads.length = 1 ∧
     (list_leads threeLeadStore none none none 0 1).total = 3 ∧
     (list_leads threeLeadStore none none none 0 1).hasMore = true) := by
  constructor
  · intro store search intent qualified skip limit
    refine ⟨rfl, rfl, ?_⟩
    simp [list_leads]
  · decide

/-- C9: every lead in any list response has hasOutput true — pending
leads never appear, whatever the store contents and query parameters. -/
theorem list_hasOutput_invariant (store : List Doc) (search intent : Option String)
    (qualified : Option Bool) (skip limit : Nat) (l : Doc)
    (hl : l ∈ (list_leads store search intent qualified skip limit).leads) :
    lookupVal l "hasOutput" = some (.bool true) := by
  have h1 : l ∈ allLeads store search intent qualified :=
    List.mem_of_mem_drop (List.mem_of_mem_take hl)
  rw [allLeads] at h1
  obtain ⟨hmem, hkeep⟩ := List.mem_filter.mp h1
  obtain ⟨d, _, rfl⟩ := List.mem_map.mp hmem
  simp only [leadKept, Bool.and_eq_true] at hkeep
  obtain ⟨⟨hout, _⟩, _⟩ := hkeep
  rw [flatten_lead_hasOutput] at hout ⊢
  simp only [Option.getD_some, truthy] at hout
  rw [hout]

/-- C9 witness: the invariant at a one-document store. -/
theorem list_hasOutput_invariant_witness :
    lookupVal (flatten_lead (analysedDoc "9")) "hasOutput" = some (.bool true) :=
  list_hasOutput_invariant [analysedDoc "9"] none none none 0 50
    (flatten_lead (analysedDoc "9")) (by decide)

theorem sumCounts_bump (counts : List (Val × Nat)) (k : Val) :
    sumCounts (bump counts k) = sumCounts counts + 1 := by
  induction counts with
  | nil => rfl
  | cons kv rest ih =>
    obtain ⟨k2, n⟩ := kv
    by_cases h : pyEq k2 k = true
    · simp [bump, h, sumCounts]
      omega
    · simp only [bump, h, if_false, Bool.false_eq_true]
      simp [sumCounts] at ih ⊢
      omega

theorem statsStep_inv (a a2 : StatsAcc) (d : Doc) (h : statsStep a d = some a2) :
    sumCounts a2.intentCounts + a.total = sumCounts a.intentCounts + a2.total := by
  simp only [statsStep] at h
  by_cases hskip : (!truthy ((lookupVal (flatten_lead d) "hasOutput").getD Val.null)) = true
  · rw [if_pos hskip] at h
    obtain rfl := Option.some.inj h
    rfl
  · rw [if_neg hskip] at h
    cases hcs : pyAddNum a.confidenceSum
        (if truthy ((lookupVal (flatten_lead d) "confidence").getD (Val.int 0)) = true then
          (lookupVal (flatten_lead d) "confidence").getD (Val.int 0) else Val.int 0) with
    | none => rw [hcs] at h; simp at h
    | some cs =>
      simp only [hcs] at h
      cases hms : pyAddNum a.messageSum
          (if truthy ((lookupVal (flatten_lead d) "messageLength").getD (Val.int 0)) = true then
            (lookupVal (flatten_lead d) "messageLength").getD (Val.int 0) else Val.int 0) with
      | none => rw [hms] at h; simp at h
      | some ms =>
        simp only [hms] at h
        by_cases hh : hashable ((lookupVal (flatten_lead d) "intent").getD (Val.str "UNKNOWN")) = true
        · rw [if_pos hh] at h
          obtain rfl := Option.some.inj h
          simp only [sumCounts_bump]
          omega
        · rw [if_neg hh] at h
          simp at h

theorem statsLoop_inv (docs : List Doc) (a a2 : StatsAcc) (h : statsLoop docs a = some a2) :
    sumCounts a2.intentCounts + a.total = sumCounts a.intentCounts + a2.total := by
  induction docs generalizing a with
  | nil =>
    rw [statsLoop] at h
    obtain rfl := Option.some.inj h
    rfl
  | cons d rest ih =>
    rw [statsLoop] at h
    cases hs : statsStep a d with
    | none => rw [hs] at h; simp at h
    | some a1 =>
      rw [hs] at h
      have h1 := statsStep_inv a a1 d hs
      have h2 := ih a1 h
      omega

theorem statsLoop_all_pending (docs : List Doc) (a : StatsAcc)
    (h : ∀ d ∈ docs, docHasOutput d = false) : statsLoop docs a = some a := by
  induction docs with
  | nil => rfl
  | cons d rest ih =>
    have hd := h d (List.mem_cons_self d rest)
    have hstep : statsStep a d = some a := by
      simp only [statsStep, flatten_lead_hasOutput, Option.getD_some, truthy, hd]
      simp
    rw [statsLoop, hstep]
    exact ih (fun d2 hm => h d2 (List.mem_cons_of_mem _ hm))

/-- C10: internal consistency of the stats response — whenever get_stats
returns, qualified plus notQualified equals total and the intent
histogram's counts sum to total; and when the scan window holds no
analysed lead the response is exactly the all-zero shape with an empty
intentBreakdown. -/
theorem stats_consistency (store : List Doc) (s : StatsResponse)
    (h : get_stats store = some s) :
    (s.qualified : Int) + s.notQualified = (s.total : Int) ∧
    sumCounts s.intentBreakdown = s.total ∧
    (analysedCount store = 0 → s = zeroStats) := by
  simp only [get_stats] at h
  cases hl : statsLoop (store.take 1000) ⟨0, 0, 0, 0, []⟩ with
  | none => rw [hl] at h; simp at h
  | some acc =>
    simp only [hl] at h
    by_cases htot : acc.total = 0
    · rw [if_pos htot] at h
      obtain rfl := Option.some.inj h
      exact ⟨by simp [zeroStats], by simp [zeroStats, sumCounts], fun _ => rfl⟩
    · rw [if_neg htot] at h
      obtain rfl := Option.some.inj h
      refine ⟨by simp, ?_, ?_⟩
      · have hinv := statsLoop_inv _ _ _ hl
        simpa [sumCounts] using hinv
      · intro hzero
        have hall : ∀ d ∈ store.take 1000, docHasOutput d = false := by
          intro d hd
          have hz := List.countP_eq_zero.mp hzero d hd
          simpa using hz
        have hpend := statsLoop_all_pending (store.take 1000) ⟨0, 0, 0, 0, []⟩ hall
        rw [hpend] at hl
        exact absurd (congrArg StatsAcc.total (Option.some.inj hl)).symm htot

/-- C10 witness: the consistency facts at a store with one analysed
document. -/
theorem stats_consistency_witness :
    ((oneLeadStats.qualified : Int) + oneLeadStats.notQualified = (oneLeadStats.total : Int)) ∧
    sumCounts oneLeadStats.intentBreakdown = oneLeadStats.total ∧
    (analysedCount oneLeadStore = 0 → oneLeadStats = zeroStats) :=
  stats_consistency oneLeadStore oneLeadStats (by decide)
